import Mathlib

/-!
Verification of `policies/policy_PriorityBaseDQN.py`.

A shallow embedding of the `PriorBaseDQN` policy class: the learning loop
(`learn`), the action selector (`act`), and the mutable policy state they
operate on (epsilon, exploration flag, running statistics, live and target
network weights).

External collaborators are modelled as oracles:
* the Keras networks are abstract weight values `α` together with a
  prediction function `pred : α → σ → List ℚ` (a row of Q-values per state);
* `model.fit` is an oracle carried by each `learn` event, mapping the target
  matrix to either an exception (`none`) or new weights plus the loss
  history (`some (w, losses)`);
* the replay buffer's `sample` result is the batch carried by each `learn`
  event; the buffer itself is external and not part of the policy state;
* NumPy randomness (`np.random.rand`, `np.random.choice`) is carried by each
  `act` event as explicit random draws.

Real-valued quantities are modelled as rationals.
-/

namespace PriorBaseDQN

/-- Module-level constant `EPSILON = 2.0`. -/
def EPSILON : ℚ := 2

/-- Module-level constant `MIN_EPSILON = 0.33`. -/
def MIN_EPSILON : ℚ := 33/100

/-- Module-level constant `GAMMA = 0.75`. -/
def GAMMA : ℚ := 3/4

/-- NumPy `np.amax` on a 1-D array: maximum of the list.  NumPy raises on an empty
array; we return `0` there and carry nonemptiness hypotheses in theorems. -/
def npAmax : List ℚ → ℚ
  | [] => 0
  | x :: xs => xs.foldl max x

/-- NumPy `np.argmax` on a 1-D array: the index of the first occurrence of the
maximum value (NumPy documents first-occurrence semantics).  `0` on an empty
array, where NumPy would raise. -/
def npArgmax (l : List ℚ) : ℕ :=
  l.findIdx fun x => decide (x = npAmax l)

/-- The fixed per-run configuration of the policy: hyperparameters set in
`cast_string_args` (all except `epsilon`/`gamma` are hard-coded there), the
base-policy run parameters `game_duration` and `score_scope`, and the
network prediction oracle. -/
structure Config (σ α : Type) where
  gameDuration : ℕ
  scoreScope : ℕ
  gamma : ℚ
  epsilonDecay : ℚ
  minEpsilon : ℚ
  saveModelRound : ℕ
  doubleDQN : Bool
  pred : α → σ → List ℚ

/-- The mutable state of a `PriorBaseDQN` instance: `self.epsilon`,
`self.use_softmax_sampling`, the running statistics `self.r_sum`,
`self.sum_of_loss`, `self.num_of_samples`, and the weights of `self.model`
(live network) and `self.old_model` (target network).  `logs` records the
severity tags passed to `self.log`. -/
structure PolicyState (α : Type) where
  epsilon : ℚ
  useSoftmaxSampling : Bool
  rSum : ℚ
  sumOfLoss : ℚ
  numOfSamples : ℕ
  model : α
  oldModel : α
  logs : List String

/-- One transition sampled from the replay buffer:
`(prev_state, action_index, reward, next_state)`; the stored terminal flag is
always `0` and is discarded by `learn`. -/
structure Sample (σ : Type) where
  prev : σ
  action : ℕ
  reward : ℚ
  next : σ

/-- Lines 116-120: the per-batch TD targets.
Standard DQN: `rewards + gamma * np.amax(old_model.predict(new), axis=1)`.
Double DQN: `rewards + gamma * old_model.predict(new)[range, argmax(model.predict(new), axis=1)]`. -/
def tdTargets {σ α : Type} (cfg : Config σ α) (model oldModel : α)
    (batch : List (Sample σ)) : List ℚ :=
  if cfg.doubleDQN then
    batch.map fun s =>
      s.reward + cfg.gamma * (cfg.pred oldModel s.next).getD (npArgmax (cfg.pred model s.next)) 0
  else
    batch.map fun s => s.reward + cfg.gamma * npAmax (cfg.pred oldModel s.next)

/-- Line 121: `target_f = self.model.predict(prev)`. -/
def targetF {σ α : Type} (cfg : Config σ α) (model : α)
    (batch : List (Sample σ)) : List (List ℚ) :=
  batch.map fun s => cfg.pred model s.prev

/-- Line 124: `target_f[range(len(actions)), actions] = target` — in row `i`,
overwrite column `actions[i]` with `target[i]`. -/
def assignTargets : List (List ℚ) → List ℕ → List ℚ → List (List ℚ)
  | row :: rows, a :: as, t :: ts => row.set a t :: assignTargets rows as ts
  | rows, _, _ => rows

/-- The target matrix passed to `self.model.fit`: the live network's
predictions for the batch's `prev` states with the taken action's entry of
each row overwritten by that sample's TD target. -/
def targetFUpdated {σ α : Type} (cfg : Config σ α) (model oldModel : α)
    (batch : List (Sample σ)) : List (List ℚ) :=
  assignTargets (targetF cfg model batch) (batch.map (·.action))
    (tdTargets cfg model oldModel batch)

/-- Refinement reference following the words of spec section 4.3: the per-sample TD target
as §4.3 words it — `reward + gamma * max_a(target_network.Q(next_state, a))`
for standard DQN, and
`reward + gamma * target_network.Q(next_state, argmax_a(live_network.Q(next_state, a)))`
for double DQN.  `liveQ`/`targetQ` are the two networks' Q-value rows at
`next_state`; the maximum is `List.maximum`. -/
def specTDTarget (doubleDQN : Bool) (gamma : ℚ) (liveQ targetQ : List ℚ)
    (reward : ℚ) : ℚ :=
  if doubleDQN then
    reward + gamma * targetQ.getD (npArgmax liveQ) 0
  else
    reward + gamma * (targetQ.maximum.unbot' 0)

/-- The NumPy randomness consumed by one `act` call: `randUnif` is the draw
of `np.random.rand()` (a value in `[0, 1)`), `randIdx` the index drawn by the
uniform `np.random.choice(ACTIONS)`, and `sampler` the distribution-dependent
draw of `np.random.choice(ACTIONS, p=softmax(...))`, as a function of the
temperature-scaled Q-row. -/
structure ActRand where
  randUnif : ℚ
  randIdx : ℕ
  sampler : List ℚ → ℕ

/-- Lines 142-145 of `act`: if `round > game_duration - score_scope`
("money-time"), permanently disable softmax sampling and zero epsilon. -/
def actMoneyCheck {σ α : Type} (cfg : Config σ α) (round : ℕ)
    (s : PolicyState α) : PolicyState α :=
  if (round : ℤ) > (cfg.gameDuration : ℤ) - (cfg.scoreScope : ℤ) then
    { s with useSoftmaxSampling := false, epsilon := 0 }
  else s

/-- Lines 153-162 of `act`: choose the action index.  Softmax mode samples
from `softmax(model.predict(state) / epsilon)`; epsilon-greedy mode picks a
uniform random action when `rand() < epsilon` and the greedy
`argmax(model.predict(state))` otherwise. -/
def actSelect {σ α : Type} (cfg : Config σ α) (s : PolicyState α)
    (newRepr : σ) (r : ActRand) : ℕ :=
  if s.useSoftmaxSampling then
    r.sampler ((cfg.pred s.model newRepr).map fun q => q / s.epsilon)
  else if r.randUnif < s.epsilon then
    r.randIdx
  else
    npArgmax (cfg.pred s.model newRepr)

/-- The `act` method: money-time check, then action selection.  Returns the
chosen action index and the updated state.  (State encoding and the replay
buffer `add` touch only external components and are omitted from the state.) -/
def act {σ α : Type} (cfg : Config σ α) (round : ℕ) (newRepr : σ)
    (r : ActRand) (s : PolicyState α) : ℕ × PolicyState α :=
  let s1 := actMoneyCheck cfg round s
  (actSelect cfg s1 newRepr r, s1)

/-- Lines 97-112 of `learn`: the logging-window bookkeeping inside
`try/except`.  At a 100-round boundary, the money-time branch logs and resets
`r_sum`; otherwise `sum_of_loss / num_of_samples` is computed first — when
`num_of_samples = 0` this raises `ZeroDivisionError`, the handler logs two
`EXCEPTION` messages and every reset statement after the raise is skipped.
With samples present, the loss statistics and then `r_sum` are reset.
Off-boundary rounds accumulate the reward into `r_sum`. -/
def learnStats {σ α : Type} (cfg : Config σ α) (round : ℕ) (reward : ℚ)
    (s : PolicyState α) : PolicyState α :=
  if round % 100 = 0 then
    if (round : ℤ) > (cfg.gameDuration : ℤ) - (cfg.scoreScope : ℤ) then
      { s with rSum := 0, logs := s.logs ++ ["VALUE"] }
    else if s.numOfSamples = 0 then
      { s with logs := s.logs ++ ["EXCEPTION", "EXCEPTION"] }
    else
      { s with rSum := 0, sumOfLoss := 0, numOfSamples := 0,
               logs := s.logs ++ ["VALUE"] }
  else
    { s with rSum := s.rSum + reward }

/-- The external inputs of one `learn` call: the round and reward arguments,
the batch returned by `self.memory.sample`, and the Keras `fit` oracle, which
receives the target matrix and either raises (`none`, caught at line 133) or
returns the updated live-network weights and the epoch loss history. -/
structure LearnIn (σ α : Type) where
  round : ℕ
  reward : ℚ
  batch : List (Sample σ)
  fit : List (List ℚ) → Option (α × List ℚ)

/-- Lines 123-134 of `learn`: run `fit` on the target matrix; on success
install the new weights and accumulate `sum_of_loss` and `num_of_samples`;
on exception (`print(e)`) leave the state unchanged. -/
def learnFit {σ α : Type} (inp : LearnIn σ α) (targets : List (List ℚ))
    (s : PolicyState α) : PolicyState α :=
  match inp.fit targets with
  | none => s
  | some (w, losses) =>
      { s with model := w,
               sumOfLoss := s.sumOfLoss + losses.sum,
               numOfSamples := s.numOfSamples + losses.length }

/-- Lines 136-137 of `learn`: every `save_model_round` rounds (round > 0),
`self._save_model()` hard-copies the live network's weights into the target
network. -/
def learnSync {σ α : Type} (cfg : Config σ α) (round : ℕ)
    (s : PolicyState α) : PolicyState α :=
  if round % cfg.saveModelRound = 0 ∧ 0 < round then
    { s with oldModel := s.model }
  else s

/-- Line 139: one multiplicative epsilon-decay step, floored at
`min_epsilon`. -/
def epsDecayStep {σ α : Type} (cfg : Config σ α) (e : ℚ) : ℚ :=
  max (e * cfg.epsilonDecay) cfg.minEpsilon

/-- Lines 138-139 of `learn`: every 200 rounds (round > 0, epsilon > 0),
decay epsilon. -/
def learnDecay {σ α : Type} (cfg : Config σ α) (round : ℕ)
    (s : PolicyState α) : PolicyState α :=
  if round % 200 = 0 ∧ 0 < round ∧ 0 < s.epsilon then
    { s with epsilon := epsDecayStep cfg s.epsilon }
  else s

/-- The `learn` method: bookkeeping, TD-target construction, the guarded
fit/priority step, target-network sync, epsilon decay — in source order. -/
def learn {σ α : Type} (cfg : Config σ α) (inp : LearnIn σ α)
    (s : PolicyState α) : PolicyState α :=
  let s1 := learnStats cfg inp.round inp.reward s
  let targets := targetFUpdated cfg s1.model s1.oldModel inp.batch
  let s2 := learnFit inp targets s1
  let s3 := learnSync cfg inp.round s2
  learnDecay cfg inp.round s3

/-- One external call into the policy: an `act` event (with its round, the
encoded new state and the randomness it consumes) or a `learn` event. -/
inductive Event (σ α : Type) where
  | actEv (round : ℕ) (newRepr : σ) (r : ActRand)
  | learnEv (inp : LearnIn σ α)

/-- State transition of a single event. -/
def step {σ α : Type} (cfg : Config σ α) (s : PolicyState α) :
    Event σ α → PolicyState α
  | .actEv round newRepr r => (act cfg round newRepr r s).2
  | .learnEv inp => learn cfg inp s

/-- Run a sequence of events from a state. -/
def run {σ α : Type} (cfg : Config σ α) (s : PolicyState α) :
    List (Event σ α) → PolicyState α
  | [] => s
  | e :: es => run cfg (step cfg s e) es

/-- The per-sample TD target of lines 116-120, specialized to one batch
entry (the vectorized NumPy expression applied to row `i`). -/
def tdTargetOf {σ α : Type} (cfg : Config σ α) (model oldModel : α)
    (s : Sample σ) : ℚ :=
  if cfg.doubleDQN then
    s.reward + cfg.gamma * (cfg.pred oldModel s.next).getD (npArgmax (cfg.pred model s.next)) 0
  else
    s.reward + cfg.gamma * npAmax (cfg.pred oldModel s.next)

/-- A configuration with the hyperparameters exactly as `cast_string_args`
fixes them: `epsilon_decay = 0.90`, `min_epsilon = MIN_EPSILON`,
`save_model_round = 250`, `gamma` defaulting to `GAMMA`; `game_duration`,
`score_scope`, the `doubleDQN` flag and the prediction oracle vary per run. -/
def defaultConfig (σ α : Type) (gd ss : ℕ) (dd : Bool)
    (pred : α → σ → List ℚ) : Config σ α where
  gameDuration := gd
  scoreScope := ss
  gamma := GAMMA
  epsilonDecay := 9/10
  minEpsilon := MIN_EPSILON
  saveModelRound := 250
  doubleDQN := dd
  pred := pred

/-- The policy state right after `init_run` (with `use_softmax_sampling`
set by `cast_string_args`): `r_sum = 0`, zero loss statistics, and the
target network a fresh copy of the live network's weights
(`self._save_model()` at line 88).  Untagged init log lines are omitted
since `logs` records severity tags only. -/
def initState {α : Type} (eps : ℚ) (w : α) : PolicyState α where
  epsilon := eps
  useSoftmaxSampling := true
  rSum := 0
  sumOfLoss := 0
  numOfSamples := 0
  model := w
  oldModel := w
  logs := []

/-- Invariant: epsilon is at or above the configured floor, or has been
zeroed by a money-time `act` call. -/
def EpsFloor {σ α : Type} (cfg : Config σ α) (s : PolicyState α) : Prop :=
  cfg.minEpsilon ≤ s.epsilon ∨ s.epsilon = 0

/-- Invariant: exploration has been permanently disabled by a money-time
`act` call. -/
def ExplorationOff {α : Type} (s : PolicyState α) : Prop :=
  s.useSoftmaxSampling = false ∧ s.epsilon = 0

/-- Invariant: whenever softmax sampling is still enabled, epsilon is
strictly positive (so the temperature division is guarded). -/
def SoftmaxGuard {α : Type} (s : PolicyState α) : Prop :=
  s.useSoftmaxSampling = true → 0 < s.epsilon

/-- Concrete two-action prediction table for concrete runs: weight `0`
(live network) predicts `[7, 9]` for every state, weight `1` (target
network) predicts `[2, 0]`, so the target network's maximal Q-value is `2`. -/
def scenPred : ℕ → ℕ → List ℚ := fun w _ => if w = 0 then [7, 9] else [2, 0]

/-- Concrete default-hyperparameter configuration:
`game_duration = 1000`, `score_scope = 100`, standard (non-double) DQN. -/
def scenConfig : Config ℕ ℕ := defaultConfig ℕ ℕ 1000 100 false scenPred

/-- Concrete transition: taken action index `0`, reward `1`. -/
def scenSample : Sample ℕ where
  prev := 0
  action := 0
  reward := 1
  next := 0

/-- Concrete `ActRand`: `rand()` draw `u`, both random choices landing on
index `i` whatever the distribution. -/
def constRand (u : ℚ) (i : ℕ) : ActRand where
  randUnif := u
  randIdx := i
  sampler := fun _ => i

/-- Concrete `learn` input at a given round: one sampled transition and a
`fit` call that raises (caught at line 133). -/
def learnInAt (round : ℕ) : LearnIn ℕ ℕ where
  round := round
  reward := 0
  batch := [scenSample]
  fit := fun _ => none

/-- Concrete state with nonzero running statistics and one trained sample
window: `r_sum = 7`, `sum_of_loss = 5`, `num_of_samples = 3`. -/
def stateStats : PolicyState ℕ where
  epsilon := 33/100
  useSoftmaxSampling := true
  rSum := 7
  sumOfLoss := 5
  numOfSamples := 3
  model := 0
  oldModel := 1
  logs := []

/-- Concrete state with a nonzero reward window but an empty training
window (`num_of_samples = 0`), as at a 100-round boundary where every
`fit` of the window failed. -/
def stateNoSamples : PolicyState ℕ where
  epsilon := 2
  useSoftmaxSampling := true
  rSum := 7
  sumOfLoss := 0
  numOfSamples := 0
  model := 0
  oldModel := 1
  logs := []

/-! Section: Basic lemmas about `npAmax` and `npArgmax` -/

theorem le_foldl_max (xs : List ℚ) (a : ℚ) : a ≤ xs.foldl max a := by
  induction xs generalizing a with
  | nil => exact le_refl a
  | cons y ys ih => exact le_trans (le_max_left a y) (ih (max a y))

theorem foldl_max_mem (xs : List ℚ) (a : ℚ) :
    xs.foldl max a = a ∨ xs.foldl max a ∈ xs := by
  induction xs generalizing a with
  | nil => exact Or.inl rfl
  | cons y ys ih =>
    rcases ih (max a y) with h | h
    · rcases max_choice a y with hm | hm
      · exact Or.inl (by rw [List.foldl_cons, h, hm])
      · exact Or.inr (by rw [List.foldl_cons, h, hm]; exact List.mem_cons_self y ys)
    · exact Or.inr (List.mem_cons_of_mem y h)

theorem le_foldl_max_of_mem {x : ℚ} {xs : List ℚ} (a : ℚ) (h : x ∈ xs) :
    x ≤ xs.foldl max a := by
  induction xs generalizing a with
  | nil => cases h
  | cons y ys ih =>
    rcases List.mem_cons.mp h with rfl | h
    · exact le_trans (le_max_right a x) (le_foldl_max ys (max a x))
    · exact ih (max a y) h

/-- The value `np.amax` of a nonempty array is an element of the array. -/
theorem npAmax_mem {l : List ℚ} (h : l ≠ []) : npAmax l ∈ l := by
  match l with
  | [] => exact absurd rfl h
  | x :: xs =>
    rcases foldl_max_mem xs x with h' | h'
    · rw [npAmax, h']; exact List.mem_cons_self x xs
    · exact List.mem_cons_of_mem x h'

/-- Every element is at most `np.amax`. -/
theorem le_npAmax {x : ℚ} {l : List ℚ} (h : x ∈ l) : x ≤ npAmax l := by
  match l with
  | [] => cases h
  | y :: ys =>
    rcases List.mem_cons.mp h with rfl | h'
    · exact le_foldl_max ys x
    · exact le_foldl_max_of_mem y h'

/-- The value `np.amax` agrees with the mathematical maximum of a nonempty list. -/
theorem npAmax_eq_maximum {l : List ℚ} (h : l ≠ []) :
    (l.maximum : WithBot ℚ) = (npAmax l : ℚ) := by
  rw [List.maximum_eq_coe_iff]
  exact ⟨npAmax_mem h, fun a ha => le_npAmax ha⟩

theorem npAmax_eq_maximum_unbot {l : List ℚ} (h : l ≠ []) :
    npAmax l = l.maximum.unbot' 0 := by
  rw [npAmax_eq_maximum h]
  rfl

/-- The index `np.argmax` of a nonempty array is a valid index. -/
theorem npArgmax_lt_length {l : List ℚ} (h : l ≠ []) : npArgmax l < l.length := by
  apply List.findIdx_lt_length_of_exists
  exact ⟨npAmax l, npAmax_mem h, by simp⟩

/-- The element at index `np.argmax` is the maximum value. -/
theorem getD_npArgmax {l : List ℚ} (h : l ≠ []) :
    l.getD (npArgmax l) 0 = npAmax l := by
  have hlt : npArgmax l < l.length := npArgmax_lt_length h
  have hp := List.findIdx_getElem (p := fun x => decide (x = npAmax l)) (w := hlt)
  rw [List.getD_eq_getElem?_getD, List.getElem?_eq_getElem hlt]
  simpa using hp

/-! Section: Which fields each phase of `learn`/`act` touches -/

section FieldLemmas

variable {σ α : Type} (cfg : Config σ α) (s : PolicyState α)

theorem learnStats_epsilon (round : ℕ) (reward : ℚ) :
    (learnStats cfg round reward s).epsilon = s.epsilon := by
  unfold learnStats; split_ifs <;> rfl

theorem learnStats_model (round : ℕ) (reward : ℚ) :
    (learnStats cfg round reward s).model = s.model := by
  unfold learnStats; split_ifs <;> rfl

theorem learnStats_oldModel (round : ℕ) (reward : ℚ) :
    (learnStats cfg round reward s).oldModel = s.oldModel := by
  unfold learnStats; split_ifs <;> rfl

theorem learnStats_useSoftmax (round : ℕ) (reward : ℚ) :
    (learnStats cfg round reward s).useSoftmaxSampling = s.useSoftmaxSampling := by
  unfold learnStats; split_ifs <;> rfl

theorem learnFit_epsilon (inp : LearnIn σ α) (t : List (List ℚ)) :
    (learnFit inp t s).epsilon = s.epsilon := by
  unfold learnFit; rcases inp.fit t with _ | ⟨w, losses⟩ <;> rfl

theorem learnFit_oldModel (inp : LearnIn σ α) (t : List (List ℚ)) :
    (learnFit inp t s).oldModel = s.oldModel := by
  unfold learnFit; rcases inp.fit t with _ | ⟨w, losses⟩ <;> rfl

theorem learnFit_rSum (inp : LearnIn σ α) (t : List (List ℚ)) :
    (learnFit inp t s).rSum = s.rSum := by
  unfold learnFit; rcases inp.fit t with _ | ⟨w, losses⟩ <;> rfl

theorem learnFit_logs (inp : LearnIn σ α) (t : List (List ℚ)) :
    (learnFit inp t s).logs = s.logs := by
  unfold learnFit; rcases inp.fit t with _ | ⟨w, losses⟩ <;> rfl

theorem learnFit_useSoftmax (inp : LearnIn σ α) (t : List (List ℚ)) :
    (learnFit inp t s).useSoftmaxSampling = s.useSoftmaxSampling := by
  unfold learnFit; rcases inp.fit t with _ | ⟨w, losses⟩ <;> rfl

theorem learnFit_of_none (inp : LearnIn σ α) (t : List (List ℚ))
    (h : inp.fit t = none) : learnFit inp t s = s := by
  unfold learnFit; rw [h]

theorem learnSync_epsilon (round : ℕ) :
    (learnSync cfg round s).epsilon = s.epsilon := by
  unfold learnSync; split_ifs <;> rfl

theorem learnSync_model (round : ℕ) :
    (learnSync cfg round s).model = s.model := by
  unfold learnSync; split_ifs <;> rfl

theorem learnSync_rSum (round : ℕ) :
    (learnSync cfg round s).rSum = s.rSum := by
  unfold learnSync; split_ifs <;> rfl

theorem learnSync_sumOfLoss (round : ℕ) :
    (learnSync cfg round s).sumOfLoss = s.sumOfLoss := by
  unfold learnSync; split_ifs <;> rfl

theorem learnSync_numOfSamples (round : ℕ) :
    (learnSync cfg round s).numOfSamples = s.numOfSamples := by
  unfold learnSync; split_ifs <;> rfl

theorem learnSync_oldModel_pos (round : ℕ)
    (h : round % cfg.saveModelRound = 0 ∧ 0 < round) :
    (learnSync cfg round s).oldModel = s.model := by
  unfold learnSync
  rw [if_pos h]

theorem learnSync_oldModel_neg (round : ℕ)
    (h : ¬(round % cfg.saveModelRound = 0 ∧ 0 < round)) :
    (learnSync cfg round s).oldModel = s.oldModel := by
  unfold learnSync
  rw [if_neg h]

theorem learnSync_logs (round : ℕ) :
    (learnSync cfg round s).logs = s.logs := by
  unfold learnSync; split_ifs <;> rfl

theorem learnSync_useSoftmax (round : ℕ) :
    (learnSync cfg round s).useSoftmaxSampling = s.useSoftmaxSampling := by
  unfold learnSync; split_ifs <;> rfl

theorem learnDecay_model (round : ℕ) :
    (learnDecay cfg round s).model = s.model := by
  unfold learnDecay; split_ifs <;> rfl

theorem learnDecay_oldModel (round : ℕ) :
    (learnDecay cfg round s).oldModel = s.oldModel := by
  unfold learnDecay; split_ifs <;> rfl

theorem learnDecay_rSum (round : ℕ) :
    (learnDecay cfg round s).rSum = s.rSum := by
  unfold learnDecay; split_ifs <;> rfl

theorem learnDecay_sumOfLoss (round : ℕ) :
    (learnDecay cfg round s).sumOfLoss = s.sumOfLoss := by
  unfold learnDecay; split_ifs <;> rfl

theorem learnDecay_numOfSamples (round : ℕ) :
    (learnDecay cfg round s).numOfSamples = s.numOfSamples := by
  unfold learnDecay; split_ifs <;> rfl

theorem learnDecay_logs (round : ℕ) :
    (learnDecay cfg round s).logs = s.logs := by
  unfold learnDecay; split_ifs <;> rfl

theorem learnDecay_useSoftmax (round : ℕ) :
    (learnDecay cfg round s).useSoftmaxSampling = s.useSoftmaxSampling := by
  unfold learnDecay; split_ifs <;> rfl

theorem actMoneyCheck_model (round : ℕ) :
    (actMoneyCheck cfg round s).model = s.model := by
  unfold actMoneyCheck; split_ifs <;> rfl

theorem actMoneyCheck_oldModel (round : ℕ) :
    (actMoneyCheck cfg round s).oldModel = s.oldModel := by
  unfold actMoneyCheck; split_ifs <;> rfl

theorem act_state (round : ℕ) (newRepr : σ) (r : ActRand) :
    (act cfg round newRepr r s).2 = actMoneyCheck cfg round s := rfl

end FieldLemmas

/-! Section: Run machinery -/

theorem run_append {σ α : Type} (cfg : Config σ α) (s : PolicyState α)
    (l1 l2 : List (Event σ α)) :
    run cfg s (l1 ++ l2) = run cfg (run cfg s l1) l2 := by
  induction l1 generalizing s with
  | nil => rfl
  | cons e es ih => simpa [run] using ih (step cfg s e)

theorem run_preserve {σ α : Type} {cfg : Config σ α}
    {P : PolicyState α → Prop}
    (hstep : ∀ s e, P s → P (step cfg s e)) :
    ∀ (evs : List (Event σ α)) (s : PolicyState α), P s → P (run cfg s evs) := by
  intro evs
  induction evs with
  | nil => exact fun s h => h
  | cons e es ih => exact fun s h => ih (step cfg s e) (hstep s e h)

/-! Section: Composite behavior of `learn` -/

section LearnLemmas

variable {σ α : Type} (cfg : Config σ α) (s : PolicyState α)

theorem learn_epsilon (inp : LearnIn σ α) :
    (learn cfg inp s).epsilon =
      if inp.round % 200 = 0 ∧ 0 < inp.round ∧ 0 < s.epsilon then
        epsDecayStep cfg s.epsilon
      else s.epsilon := by
  simp only [learn, learnDecay, apply_ite (PolicyState.epsilon), learnSync_epsilon,
    learnFit_epsilon, learnStats_epsilon]

theorem learn_useSoftmax (inp : LearnIn σ α) :
    (learn cfg inp s).useSoftmaxSampling = s.useSoftmaxSampling := by
  simp only [learn, learnDecay_useSoftmax, learnSync_useSoftmax, learnFit_useSoftmax,
    learnStats_useSoftmax]

theorem learnStats_money (round : ℕ) (reward : ℚ) (h100 : round % 100 = 0)
    (hm : (round : ℤ) > (cfg.gameDuration : ℤ) - (cfg.scoreScope : ℤ)) :
    learnStats cfg round reward s = { s with rSum := 0, logs := s.logs ++ ["VALUE"] } := by
  unfold learnStats
  rw [if_pos h100, if_pos hm]

theorem learnStats_exc (round : ℕ) (reward : ℚ) (h100 : round % 100 = 0)
    (hm : ¬((round : ℤ) > (cfg.gameDuration : ℤ) - (cfg.scoreScope : ℤ)))
    (h0 : s.numOfSamples = 0) :
    learnStats cfg round reward s = { s with logs := s.logs ++ ["EXCEPTION", "EXCEPTION"] } := by
  unfold learnStats
  rw [if_pos h100, if_neg hm, if_pos h0]

theorem learnStats_reset (round : ℕ) (reward : ℚ) (h100 : round % 100 = 0)
    (hm : ¬((round : ℤ) > (cfg.gameDuration : ℤ) - (cfg.scoreScope : ℤ)))
    (h0 : s.numOfSamples ≠ 0) :
    learnStats cfg round reward s =
      { s with rSum := 0, sumOfLoss := 0, numOfSamples := 0,
               logs := s.logs ++ ["VALUE"] } := by
  unfold learnStats
  rw [if_pos h100, if_neg hm, if_neg h0]

theorem learn_of_fitNone (inp : LearnIn σ α)
    (hfit : inp.fit (targetFUpdated cfg s.model s.oldModel inp.batch) = none) :
    learn cfg inp s =
      learnDecay cfg inp.round (learnSync cfg inp.round
        (learnStats cfg inp.round inp.reward s)) := by
  simp only [learn, learnStats_model, learnStats_oldModel]
  rw [learnFit_of_none _ _ _ hfit]

end LearnLemmas

/-! Section: The target computation as per-sample maps -/

theorem tdTargets_eq_map {σ α : Type} (cfg : Config σ α) (m om : α)
    (batch : List (Sample σ)) :
    tdTargets cfg m om batch = batch.map (tdTargetOf cfg m om) := by
  unfold tdTargets tdTargetOf
  cases h : cfg.doubleDQN <;> simp [h]

theorem assignTargets_map {β : Type} (f : β → List ℚ) (g : β → ℕ) (h : β → ℚ) :
    ∀ l : List β, assignTargets (l.map f) (l.map g) (l.map h)
      = l.map fun x => (f x).set (g x) (h x)
  | [] => rfl
  | x :: xs => by
      simp only [List.map_cons, assignTargets, assignTargets_map f g h xs]

theorem targetFUpdated_eq_map {σ α : Type} (cfg : Config σ α) (m om : α)
    (batch : List (Sample σ)) :
    targetFUpdated cfg m om batch
      = batch.map fun s => (cfg.pred m s.prev).set s.action (tdTargetOf cfg m om s) := by
  unfold targetFUpdated targetF
  rw [tdTargets_eq_map]
  exact assignTargets_map _ _ _ batch

theorem getD_map {β γ : Type} (f : β → γ) (l : List β) (i : ℕ)
    (hi : i < l.length) (d : γ) :
    (l.map f).getD i d = f (l.get ⟨i, hi⟩) := by
  rw [List.getD_eq_getElem?_getD, List.getElem?_map, List.getElem?_eq_getElem hi]
  rfl

theorem getD_set_ne (l : List ℚ) (a j : ℕ) (t : ℚ) (h : j ≠ a) :
    (l.set a t).getD j 0 = l.getD j 0 := by
  rw [List.getD_eq_getElem?_getD, List.getD_eq_getElem?_getD,
    List.getElem?_set_ne (Ne.symm h)]

theorem getD_set_self (l : List ℚ) (a : ℕ) (t : ℚ) (h : a < l.length) :
    (l.set a t).getD a 0 = t := by
  rw [List.getD_eq_getElem?_getD, List.getElem?_set_self h]
  rfl

/-! Section: Invariant preservation along runs -/

theorem actMoneyCheck_money {σ α : Type} (cfg : Config σ α) {round : ℕ}
    (s : PolicyState α)
    (h : (round : ℤ) > (cfg.gameDuration : ℤ) - (cfg.scoreScope : ℤ)) :
    actMoneyCheck cfg round s = { s with useSoftmaxSampling := false, epsilon := 0 } := by
  unfold actMoneyCheck
  rw [if_pos h]

theorem actMoneyCheck_notMoney {σ α : Type} (cfg : Config σ α) {round : ℕ}
    (s : PolicyState α)
    (h : ¬((round : ℤ) > (cfg.gameDuration : ℤ) - (cfg.scoreScope : ℤ))) :
    actMoneyCheck cfg round s = s := by
  unfold actMoneyCheck
  rw [if_neg h]

theorem step_epsFloor_le {σ α : Type} {cfg : Config σ α}
    (hmin : 0 ≤ cfg.minEpsilon) (hdec : cfg.epsilonDecay ≤ 1)
    (s : PolicyState α) (e : Event σ α) (hs : EpsFloor cfg s) :
    EpsFloor cfg (step cfg s e) ∧ (step cfg s e).epsilon ≤ s.epsilon := by
  have hs0 : 0 ≤ s.epsilon := by
    rcases hs with h | h
    · exact hmin.trans h
    · rw [h]
  cases e with
  | actEv round newRepr r =>
    show EpsFloor cfg (actMoneyCheck cfg round s) ∧
      (actMoneyCheck cfg round s).epsilon ≤ s.epsilon
    unfold actMoneyCheck
    split_ifs
    · exact ⟨Or.inr rfl, hs0⟩
    · exact ⟨hs, le_refl _⟩
  | learnEv inp =>
    show EpsFloor cfg (learn cfg inp s) ∧ (learn cfg inp s).epsilon ≤ s.epsilon
    unfold EpsFloor
    rw [learn_epsilon]
    split_ifs with hc
    · obtain ⟨-, -, hpos⟩ := hc
      have hεmin : cfg.minEpsilon ≤ s.epsilon := by
        rcases hs with h' | h'
        · exact h'
        · rw [h'] at hpos
          exact absurd hpos (lt_irrefl 0)
      refine ⟨Or.inl (le_max_right _ _), max_le ?_ hεmin⟩
      calc s.epsilon * cfg.epsilonDecay ≤ s.epsilon * 1 :=
            mul_le_mul_of_nonneg_left hdec hs0
        _ = s.epsilon := mul_one _
    · exact ⟨hs, le_refl _⟩

theorem actMoneyCheck_explOff {σ α : Type} {cfg : Config σ α} {round : ℕ}
    {s : PolicyState α} (h : ExplorationOff s) :
    ExplorationOff (actMoneyCheck cfg round s) := by
  unfold actMoneyCheck
  split_ifs
  · exact ⟨rfl, rfl⟩
  · exact h

theorem step_explOff {σ α : Type} {cfg : Config σ α}
    (s : PolicyState α) (e : Event σ α) (h : ExplorationOff s) :
    ExplorationOff (step cfg s e) := by
  cases e with
  | actEv round newRepr r => exact actMoneyCheck_explOff h
  | learnEv inp =>
    show ExplorationOff (learn cfg inp s)
    have hne : ¬(inp.round % 200 = 0 ∧ 0 < inp.round ∧ 0 < s.epsilon) := by
      rintro ⟨-, -, hpos⟩
      rw [h.2] at hpos
      exact lt_irrefl 0 hpos
    constructor
    · rw [learn_useSoftmax]
      exact h.1
    · rw [learn_epsilon, if_neg hne]
      exact h.2

theorem step_epsZero {σ α : Type} {cfg : Config σ α}
    (s : PolicyState α) (e : Event σ α) (h : s.epsilon = 0) :
    (step cfg s e).epsilon = 0 := by
  cases e with
  | actEv round newRepr r =>
    show (actMoneyCheck cfg round s).epsilon = 0
    unfold actMoneyCheck
    split_ifs
    · rfl
    · exact h
  | learnEv inp =>
    show (learn cfg inp s).epsilon = 0
    have hne : ¬(inp.round % 200 = 0 ∧ 0 < inp.round ∧ 0 < s.epsilon) := by
      rintro ⟨-, -, hpos⟩
      rw [h] at hpos
      exact lt_irrefl 0 hpos
    rw [learn_epsilon, if_neg hne]
    exact h

theorem actMoneyCheck_softmaxGuard {σ α : Type} {cfg : Config σ α} {round : ℕ}
    {s : PolicyState α} (h : SoftmaxGuard s) :
    SoftmaxGuard (actMoneyCheck cfg round s) := by
  unfold actMoneyCheck
  split_ifs
  · intro hsm
    simp at hsm
  · exact h

theorem step_softmaxGuard {σ α : Type} {cfg : Config σ α}
    (hd : 0 < cfg.epsilonDecay)
    (s : PolicyState α) (e : Event σ α) (h : SoftmaxGuard s) :
    SoftmaxGuard (step cfg s e) := by
  cases e with
  | actEv round newRepr r => exact actMoneyCheck_softmaxGuard h
  | learnEv inp =>
    show SoftmaxGuard (learn cfg inp s)
    intro hsm
    rw [learn_useSoftmax] at hsm
    have hε := h hsm
    rw [learn_epsilon]
    split_ifs with hc
    · exact lt_max_iff.mpr (Or.inl (mul_pos hε hd))
    · exact hε

/-! Section: Claim theorems -/

/-- Claim C1 (amended).  Over any sequence of learn/act calls from an initial
epsilon at or above `min_epsilon` (with the configured `0 ≤ min_epsilon` and
`epsilon_decay ≤ 1`), epsilon is monotonically non-increasing at every step,
and at every point it is either still at or above `min_epsilon` or exactly
`0` — the latter because an `act` call inside the final `score_scope` window
zeroes it (line 145), which is the one way it drops below `min_epsilon`. -/
theorem C1_epsilon_monotone_floor {σ α : Type} (cfg : Config σ α)
    (s0 : PolicyState α) (hmin : 0 ≤ cfg.minEpsilon) (hdec : cfg.epsilonDecay ≤ 1)
    (h0 : cfg.minEpsilon ≤ s0.epsilon) (evs : List (Event σ α)) (e : Event σ α) :
    (run cfg s0 (evs ++ [e])).epsilon ≤ (run cfg s0 evs).epsilon ∧
    (cfg.minEpsilon ≤ (run cfg s0 evs).epsilon ∨ (run cfg s0 evs).epsilon = 0) := by
  have hfloor : ∀ l, EpsFloor cfg (run cfg s0 l) := fun l =>
    run_preserve (fun s e hs => (step_epsFloor_le hmin hdec s e hs).1) l s0 (Or.inl h0)
  constructor
  · rw [run_append]
    exact (step_epsFloor_le hmin hdec _ e (hfloor evs)).2
  · exact hfloor evs

/-- Claim C1 (counterexample to the claim as stated).  Starting from the
default initial epsilon `2 ≥ min_epsilon`, a single `act` call at round 950
of a run with `game_duration = 1000`, `score_scope = 100` leaves epsilon at
`0`, strictly below `min_epsilon = 0.33`. -/
theorem C1_counterexample :
    scenConfig.minEpsilon ≤ (initState (α := ℕ) 2 0).epsilon ∧
    (run scenConfig (initState 2 0) [Event.actEv 950 7 (constRand 0 0)]).epsilon
      < scenConfig.minEpsilon := by
  constructor
  · norm_num [scenConfig, defaultConfig, initState, MIN_EPSILON]
  · norm_num [run, step, act_state, scenConfig, defaultConfig, initState,
      MIN_EPSILON, actMoneyCheck]

/-- Claim C1 (witness).  The amended theorem applied at the default
configuration, initial epsilon `2`, the empty prefix and one `learn` call at
round 200. -/
theorem C1_witness :
    (run scenConfig (initState 2 0) ([] ++ [Event.learnEv (learnInAt 200)])).epsilon
      ≤ (run scenConfig (initState 2 0) []).epsilon ∧
    (scenConfig.minEpsilon ≤ (run scenConfig (initState 2 0) []).epsilon ∨
      (run scenConfig (initState 2 0) []).epsilon = 0) :=
  C1_epsilon_monotone_floor scenConfig (initState 2 0)
    (by norm_num [scenConfig, defaultConfig, MIN_EPSILON])
    (by norm_num [scenConfig, defaultConfig])
    (by norm_num [scenConfig, defaultConfig, initState, MIN_EPSILON])
    [] (Event.learnEv (learnInAt 200))

/-- Claim C7.  `learn` decays epsilon exactly on calls with
`round % 200 = 0`, `round > 0` and `epsilon > 0`, setting it to
`max(epsilon * epsilon_decay, min_epsilon)`; every other `learn` call leaves
epsilon unchanged.  With the configured `epsilon_decay = 0.9`,
`min_epsilon = 0.33`, ten decay events from `epsilon = 2` yield
`max(2 * 0.9^10, 0.33)`. -/
theorem C7_epsilon_decay {σ α : Type} (cfg : Config σ α) (inp : LearnIn σ α)
    (s : PolicyState α) :
    ((inp.round % 200 = 0 ∧ 0 < inp.round ∧ 0 < s.epsilon) →
        (learn cfg inp s).epsilon = max (s.epsilon * cfg.epsilonDecay) cfg.minEpsilon) ∧
    (¬(inp.round % 200 = 0 ∧ 0 < inp.round ∧ 0 < s.epsilon) →
        (learn cfg inp s).epsilon = s.epsilon) ∧
    (epsDecayStep scenConfig)^[10] EPSILON = max (EPSILON * (9/10)^10) MIN_EPSILON := by
  refine ⟨fun h => ?_, fun h => ?_, ?_⟩
  · rw [learn_epsilon, if_pos h]
    rfl
  · rw [learn_epsilon, if_neg h]
  · show epsDecayStep scenConfig (epsDecayStep scenConfig (epsDecayStep scenConfig
      (epsDecayStep scenConfig (epsDecayStep scenConfig (epsDecayStep scenConfig
        (epsDecayStep scenConfig (epsDecayStep scenConfig (epsDecayStep scenConfig
          (epsDecayStep scenConfig EPSILON))))))))) = _
    norm_num [epsDecayStep, scenConfig, defaultConfig, EPSILON, MIN_EPSILON, max_def]

/-- Claim C7 (witness).  One decay event at round 200 from `epsilon = 2`
yields `max(2 * 0.9, 0.33) = 1.8`. -/
theorem C7_witness :
    (learn scenConfig (learnInAt 200) (initState 2 0)).epsilon
      = max ((initState (α := ℕ) 2 0).epsilon * scenConfig.epsilonDecay)
          scenConfig.minEpsilon :=
  (C7_epsilon_decay scenConfig (learnInAt 200) (initState 2 0)).1 (by decide)

/-- Claim C9.  The target network's weights are never modified by `act`, are
unchanged by any `learn` call whose round is not a positive multiple of
`save_model_round`, and immediately after a `learn` call at a positive
multiple of `save_model_round` they equal the live network's (post-fit)
weights — a hard copy. -/
theorem C9_target_network_sync {σ α : Type} (cfg : Config σ α) (s : PolicyState α) :
    (∀ (round : ℕ) (newRepr : σ) (r : ActRand),
        ((act cfg round newRepr r s).2).oldModel = s.oldModel) ∧
    (∀ inp : LearnIn σ α, ¬(inp.round % cfg.saveModelRound = 0 ∧ 0 < inp.round) →
        (learn cfg inp s).oldModel = s.oldModel) ∧
    ∀ inp : LearnIn σ α, (inp.round % cfg.saveModelRound = 0 ∧ 0 < inp.round) →
        (learn cfg inp s).oldModel = (learn cfg inp s).model := by
  refine ⟨fun round newRepr r => ?_, fun inp h => ?_, fun inp h => ?_⟩
  · rw [act_state, actMoneyCheck_oldModel]
  · simp only [learn]
    rw [learnDecay_oldModel, learnSync_oldModel_neg _ _ _ h, learnFit_oldModel,
      learnStats_oldModel]
  · simp only [learn]
    rw [learnDecay_oldModel, learnDecay_model, learnSync_model,
      learnSync_oldModel_pos _ _ _ h]

/-- Claim C9 (witness).  A `learn` at round 250 syncs (`250 % 250 = 0`); a
`learn` at round 100 does not (`100 % 250 ≠ 0`). -/
theorem C9_witness :
    (learn scenConfig (learnInAt 250) stateStats).oldModel
      = (learn scenConfig (learnInAt 250) stateStats).model ∧
    (learn scenConfig (learnInAt 100) stateStats).oldModel = stateStats.oldModel :=
  ⟨(C9_target_network_sync scenConfig stateStats).2.2 (learnInAt 250) (by decide),
   (C9_target_network_sync scenConfig stateStats).2.1 (learnInAt 100) (by decide)⟩

/-- Claim C10.  An `act` call with `round > game_duration - score_scope` sets
epsilon to exactly `0`, and it stays `0` over every subsequent sequence of
`act`/`learn` calls: the decay branch requires `epsilon > 0`, so epsilon
never returns to `min_epsilon`. -/
theorem C10_epsilon_zero_after_money {σ α : Type} (cfg : Config σ α)
    (s : PolicyState α) (round : ℕ) (newRepr : σ) (r : ActRand)
    (hmoney : (round : ℤ) > (cfg.gameDuration : ℤ) - (cfg.scoreScope : ℤ))
    (evs : List (Event σ α)) :
    (run cfg ((act cfg round newRepr r s).2) evs).epsilon = 0 := by
  apply run_preserve step_epsZero evs
  rw [act_state, actMoneyCheck_money cfg s hmoney]

/-- Claim C10 (witness).  A money-time `act` at round 950 followed by a
`learn` at round 200 leaves epsilon exactly `0`. -/
theorem C10_witness :
    (run scenConfig ((act scenConfig 950 7 (constRand 0 0) (initState 2 0)).2)
      [Event.learnEv (learnInAt 200)]).epsilon = 0 :=
  C10_epsilon_zero_after_money scenConfig (initState 2 0) 950 7 (constRand 0 0)
    (by decide) [Event.learnEv (learnInAt 200)]

/-- Claim C6.  Once an `act` call occurs with
`round > game_duration - score_scope`, every subsequent `act` call (after any
interleaving of further calls) performs no randomized exploration: the
returned action is `argmax` of the live network's prediction for the encoded
state — a deterministic function of the weights and the state — and in
particular two calls with different random draws (both with
`np.random.rand()` draws in `[0, 1)`) return the same action. -/
theorem C6_no_exploration_after_money {σ α : Type} (cfg : Config σ α)
    (s : PolicyState α) (round0 : ℕ) (newRepr0 : σ) (r0 : ActRand)
    (hmoney : (round0 : ℤ) > (cfg.gameDuration : ℤ) - (cfg.scoreScope : ℤ))
    (evs : List (Event σ α)) (s1 : PolicyState α)
    (hs1 : s1 = run cfg ((act cfg round0 newRepr0 r0 s).2) evs)
    (round1 : ℕ) (newRepr : σ) (r1 r2 : ActRand)
    (h1 : 0 ≤ r1.randUnif) (h2 : 0 ≤ r2.randUnif) :
    (act cfg round1 newRepr r1 s1).1 = npArgmax (cfg.pred s1.model newRepr) ∧
    (act cfg round1 newRepr r1 s1).1 = (act cfg round1 newRepr r2 s1).1 := by
  have hoff : ExplorationOff s1 := by
    rw [hs1]
    apply run_preserve step_explOff evs
    rw [act_state, actMoneyCheck_money cfg s hmoney]
    exact ⟨rfl, rfl⟩
  have hoff2 : ExplorationOff (actMoneyCheck cfg round1 s1) :=
    actMoneyCheck_explOff hoff
  have key : ∀ r : ActRand, 0 ≤ r.randUnif →
      (act cfg round1 newRepr r s1).1 = npArgmax (cfg.pred s1.model newRepr) := by
    intro r hr
    show actSelect cfg (actMoneyCheck cfg round1 s1) newRepr r = _
    unfold actSelect
    rw [if_neg, if_neg, actMoneyCheck_model]
    · rw [hoff2.2]
      exact fun hlt => absurd (lt_of_le_of_lt hr hlt) (lt_irrefl 0)
    · rw [hoff2.1]
      exact Bool.false_ne_true
  exact ⟨key r1 h1, (key r1 h1).trans (key r2 h2).symm⟩

/-- Claim C6 (witness).  After a money-time `act` at round 950, an `act` at
round 300 returns the greedy action for any random draws. -/
theorem C6_witness :
    (act scenConfig 300 7 (constRand 0 1)
        (run scenConfig ((act scenConfig 950 7 (constRand 0 0) (initState 2 0)).2) [])).1
      = npArgmax (scenConfig.pred
          (run scenConfig ((act scenConfig 950 7 (constRand 0 0) (initState 2 0)).2) []).model 7) ∧
    (act scenConfig 300 7 (constRand 0 1)
        (run scenConfig ((act scenConfig 950 7 (constRand 0 0) (initState 2 0)).2) [])).1
      = (act scenConfig 300 7 (constRand (1/2) 5)
          (run scenConfig ((act scenConfig 950 7 (constRand 0 0) (initState 2 0)).2) [])).1 :=
  C6_no_exploration_after_money scenConfig (initState 2 0) 950 7 (constRand 0 0)
    (by decide) [] _ rfl 300 7 (constRand 0 1) (constRand (1/2) 5)
    (by decide) (by norm_num [constRand])

/-- Claim C8.  In any run whose initial configured epsilon is strictly
positive (and with the configured `epsilon_decay > 0`), every `act` call
that takes the softmax branch does so with a strictly nonzero epsilon: the
temperature division `model.predict(state) / epsilon` is guarded against the
`epsilon → 0` degeneracy, because the only assignment of a non-positive
epsilon (line 145) also permanently clears `use_softmax_sampling`. -/
theorem C8_softmax_temperature_guarded {σ α : Type} (cfg : Config σ α)
    (hd : 0 < cfg.epsilonDecay) (s0 : PolicyState α) (h0 : 0 < s0.epsilon)
    (evs : List (Event σ α)) (round : ℕ) (newRepr : σ) (r : ActRand)
    (s1 : PolicyState α) (hs1 : s1 = actMoneyCheck cfg round (run cfg s0 evs))
    (hsm : s1.useSoftmaxSampling = true) :
    s1.epsilon ≠ 0 ∧
    (act cfg round newRepr r (run cfg s0 evs)).1
      = r.sampler ((cfg.pred s1.model newRepr).map fun q => q / s1.epsilon) := by
  have hguard : SoftmaxGuard (run cfg s0 evs) :=
    run_preserve (step_softmaxGuard hd) evs s0 (fun _ => h0)
  have hg1 : SoftmaxGuard s1 := by
    rw [hs1]
    exact actMoneyCheck_softmaxGuard hguard
  have hpos : 0 < s1.epsilon := hg1 hsm
  refine ⟨ne_of_gt hpos, ?_⟩
  show actSelect cfg (actMoneyCheck cfg round (run cfg s0 evs)) newRepr r = _
  rw [← hs1]
  unfold actSelect
  rw [if_pos hsm]

/-- Claim C8 (witness).  With initial epsilon `2`, an `act` at round 300
(before money-time) takes the softmax branch with epsilon `2 ≠ 0` and
returns the softmax sample of `Q/2`. -/
theorem C8_witness :
    (actMoneyCheck scenConfig 300 (run scenConfig (initState (α := ℕ) 2 0) [])).epsilon ≠ 0 ∧
    (act scenConfig 300 7 (constRand 0 1) (run scenConfig (initState 2 0) [])).1
      = (constRand 0 1).sampler
          ((scenConfig.pred
              (actMoneyCheck scenConfig 300 (run scenConfig (initState (α := ℕ) 2 0) [])).model 7).map
            fun q => q / (actMoneyCheck scenConfig 300
              (run scenConfig (initState (α := ℕ) 2 0) [])).epsilon) :=
  C8_softmax_temperature_guarded scenConfig (by norm_num [scenConfig, defaultConfig])
    (initState 2 0) (by decide)
    [] 300 7 (constRand 0 1) _ rfl (by decide)

/-- Claim C2.  On every `learn` call, the per-sample TD target computed at
lines 116-120 equals the spec's formula: with `doubleDQN = False`,
`reward + gamma * max_a(target_network.Q(next_state, a))`; with
`doubleDQN = True`,
`reward + gamma * target_network.Q(next_state, argmax_a(live_network.Q(next_state, a)))`.
Moreover `np.amax` really is the maximum over the action set (a member and
an upper bound), and `np.argmax` really picks a valid index attaining it. -/
theorem C2_td_target_formula {σ α : Type} (cfg : Config σ α) (m om : α)
    (batch : List (Sample σ))
    (hT : ∀ s ∈ batch, cfg.pred om s.next ≠ [])
    (hL : ∀ s ∈ batch, cfg.pred m s.next ≠ []) :
    tdTargets cfg m om batch = (batch.map fun s =>
      specTDTarget cfg.doubleDQN cfg.gamma (cfg.pred m s.next)
        (cfg.pred om s.next) s.reward) ∧
    (∀ s ∈ batch,
      npAmax (cfg.pred om s.next) ∈ cfg.pred om s.next ∧
      ∀ x ∈ cfg.pred om s.next, x ≤ npAmax (cfg.pred om s.next)) ∧
    ∀ s ∈ batch,
      npArgmax (cfg.pred m s.next) < (cfg.pred m s.next).length ∧
      (cfg.pred m s.next).getD (npArgmax (cfg.pred m s.next)) 0
        = npAmax (cfg.pred m s.next) := by
  refine ⟨?_, fun s hs => ⟨npAmax_mem (hT s hs), fun x hx => le_npAmax hx⟩,
    fun s hs => ⟨npArgmax_lt_length (hL s hs), getD_npArgmax (hL s hs)⟩⟩
  rw [tdTargets_eq_map]
  apply List.map_congr_left
  intro s hs
  unfold tdTargetOf specTDTarget
  cases hdd : cfg.doubleDQN
  · simp only [Bool.false_eq_true, if_false]
    rw [npAmax_eq_maximum_unbot (hT s hs)]
  · simp only [if_true]

/-- Claim C2 (witness).  For the concrete batch (`reward = 1`,
`gamma = 0.75`, target-network row `[2, 0]` at `next`), the computed targets
equal the spec formula's values. -/
theorem C2_witness :
    tdTargets scenConfig 0 1 [scenSample] = ([scenSample].map fun s =>
      specTDTarget scenConfig.doubleDQN scenConfig.gamma (scenConfig.pred 0 s.next)
        (scenConfig.pred 1 s.next) s.reward) :=
  (C2_td_target_formula scenConfig 0 1 [scenSample]
    (by decide) (by decide)).1

/-- Claim C3.  The target matrix passed to `model.fit` equals the live
network's prediction for `prev_state` in every component except the taken
action's index, which holds the TD target (line 124). -/
theorem C3_target_vector {σ α : Type} (cfg : Config σ α) (m om : α)
    (batch : List (Sample σ)) (i : ℕ) (hi : i < batch.length) :
    (∀ j, j ≠ (batch.get ⟨i, hi⟩).action →
      ((targetFUpdated cfg m om batch).getD i []).getD j 0
        = (cfg.pred m (batch.get ⟨i, hi⟩).prev).getD j 0) ∧
    ((batch.get ⟨i, hi⟩).action < (cfg.pred m (batch.get ⟨i, hi⟩).prev).length →
      ((targetFUpdated cfg m om batch).getD i []).getD (batch.get ⟨i, hi⟩).action 0
        = (tdTargets cfg m om batch).getD i 0) := by
  have hrow : (targetFUpdated cfg m om batch).getD i []
      = (cfg.pred m (batch.get ⟨i, hi⟩).prev).set (batch.get ⟨i, hi⟩).action
          (tdTargetOf cfg m om (batch.get ⟨i, hi⟩)) := by
    rw [targetFUpdated_eq_map, getD_map _ _ _ hi]
  have htd : (tdTargets cfg m om batch).getD i 0
      = tdTargetOf cfg m om (batch.get ⟨i, hi⟩) := by
    rw [tdTargets_eq_map, getD_map _ _ _ hi]
  constructor
  · intro j hj
    rw [hrow, getD_set_ne _ _ _ _ hj]
  · intro ha
    rw [hrow, htd, getD_set_self _ _ _ ha]

/-- Claim C3 (witness, the spec's scenario).  With `doubleDQN = False`,
`gamma = 0.75`, `reward = 1`, target-network max-Q at `next` equal to `2`
and live prediction `[7, 9]` for `prev`: the taken action's slot (index 0)
of the target row is `1 + 0.75 * 2 = 2.5`, and the other slot keeps the
unmodified prediction `9`. -/
theorem C3_witness :
    ((targetFUpdated scenConfig 0 1 [scenSample]).getD 0 []).getD 1 0 = (9 : ℚ) ∧
    ((targetFUpdated scenConfig 0 1 [scenSample]).getD 0 []).getD 0 0 = (5/2 : ℚ) := by
  have h := C3_target_vector scenConfig 0 1 [scenSample] 0 (by decide)
  constructor
  · rw [h.1 1 (by decide)]
    norm_num [scenConfig, defaultConfig, scenPred, scenSample]
  · have h2 := h.2 (by norm_num [scenConfig, defaultConfig, scenPred, scenSample])
    rw [tdTargets_eq_map, getD_map _ _ _ (by decide)] at h2
    norm_num [tdTargetOf, scenConfig, defaultConfig, scenPred, scenSample, GAMMA,
      npAmax, max_def, List.get_eq_getElem, List.getElem_cons_zero] at h2
    exact h2

/-- Claim C4 (amended).  At a `learn` call whose round is a multiple of 100
(with the training step contributing nothing, e.g. `fit` raising): inside
the money-time window only the reward window sum is reset, while the loss
sum and trained-sample count are left unchanged; outside money-time with a
nonzero trained-sample count all three statistics are reset; outside
money-time with a zero trained-sample count the bookkeeping division raises
and nothing is reset. -/
theorem C4_stats_reset {σ α : Type} (cfg : Config σ α) (inp : LearnIn σ α)
    (s : PolicyState α) (h100 : inp.round % 100 = 0)
    (hfit : inp.fit (targetFUpdated cfg s.model s.oldModel inp.batch) = none) :
    (((inp.round : ℤ) > (cfg.gameDuration : ℤ) - (cfg.scoreScope : ℤ)) →
        (learn cfg inp s).rSum = 0 ∧
        (learn cfg inp s).sumOfLoss = s.sumOfLoss ∧
        (learn cfg inp s).numOfSamples = s.numOfSamples) ∧
    (¬((inp.round : ℤ) > (cfg.gameDuration : ℤ) - (cfg.scoreScope : ℤ)) →
      s.numOfSamples ≠ 0 →
        (learn cfg inp s).rSum = 0 ∧
        (learn cfg inp s).sumOfLoss = 0 ∧
        (learn cfg inp s).numOfSamples = 0) ∧
    (¬((inp.round : ℤ) > (cfg.gameDuration : ℤ) - (cfg.scoreScope : ℤ)) →
      s.numOfSamples = 0 →
        (learn cfg inp s).rSum = s.rSum ∧
        (learn cfg inp s).sumOfLoss = s.sumOfLoss ∧
        (learn cfg inp s).numOfSamples = 0) := by
  rw [learn_of_fitNone cfg s inp hfit]
  refine ⟨fun hm => ?_, fun hm hn => ?_, fun hm hn => ?_⟩
  · rw [learnStats_money cfg s _ _ h100 hm]
    exact ⟨by rw [learnDecay_rSum, learnSync_rSum],
      by rw [learnDecay_sumOfLoss, learnSync_sumOfLoss],
      by rw [learnDecay_numOfSamples, learnSync_numOfSamples]⟩
  · rw [learnStats_reset cfg s _ _ h100 hm hn]
    exact ⟨by rw [learnDecay_rSum, learnSync_rSum],
      by rw [learnDecay_sumOfLoss, learnSync_sumOfLoss],
      by rw [learnDecay_numOfSamples, learnSync_numOfSamples]⟩
  · rw [learnStats_exc cfg s _ _ h100 hm hn]
    exact ⟨by rw [learnDecay_rSum, learnSync_rSum],
      by rw [learnDecay_sumOfLoss, learnSync_sumOfLoss],
      by rw [learnDecay_numOfSamples, learnSync_numOfSamples]; exact hn⟩

/-- Claim C4 (counterexample to the claim as stated).  A `learn` call at
round 1000 — a multiple of 100 inside the money-time window of a run with
`game_duration = 1000`, `score_scope = 100` — leaves the loss sum at `5`
and the trained-sample count at `3`: the claim that all three running
statistics are reset regardless of the window fails. -/
theorem C4_counterexample :
    (1000 : ℕ) % 100 = 0 ∧
    ((1000 : ℤ) > (scenConfig.gameDuration : ℤ) - (scenConfig.scoreScope : ℤ)) ∧
    (learn scenConfig (learnInAt 1000) stateStats).sumOfLoss ≠ 0 ∧
    (learn scenConfig (learnInAt 1000) stateStats).numOfSamples ≠ 0 := by
  refine ⟨by decide, by decide, ?_, ?_⟩ <;>
    rw [learn_of_fitNone scenConfig stateStats (learnInAt 1000) rfl,
      learnStats_money scenConfig stateStats _ _ (by decide) (by decide)]
  · rw [learnDecay_sumOfLoss, learnSync_sumOfLoss]
    norm_num [stateStats]
  · rw [learnDecay_numOfSamples, learnSync_numOfSamples]
    norm_num [stateStats]

/-- Claim C4 (witness).  The amended theorem's money-time branch at the
concrete round-1000 call. -/
theorem C4_witness :
    (learn scenConfig (learnInAt 1000) stateStats).rSum = 0 ∧
    (learn scenConfig (learnInAt 1000) stateStats).sumOfLoss = stateStats.sumOfLoss ∧
    (learn scenConfig (learnInAt 1000) stateStats).numOfSamples
      = stateStats.numOfSamples :=
  (C4_stats_reset scenConfig (learnInAt 1000) stateStats (by decide) rfl).1 (by decide)

/-- Claim C5 (amended).  When the logging-window bookkeeping raises (division
by zero because the trained-sample count is zero at a non-money-time
100-round boundary), the exception is caught and logged with tag
`EXCEPTION` — but the windowed-sum reset does NOT take place: the raise
skips the reset statements, so `r_sum` keeps its pre-call value. -/
theorem C5_exception_skips_reset {σ α : Type} (cfg : Config σ α)
    (inp : LearnIn σ α) (s : PolicyState α) (h100 : inp.round % 100 = 0)
    (hm : ¬((inp.round : ℤ) > (cfg.gameDuration : ℤ) - (cfg.scoreScope : ℤ)))
    (h0 : s.numOfSamples = 0) :
    (learn cfg inp s).logs = s.logs ++ ["EXCEPTION", "EXCEPTION"] ∧
    (learn cfg inp s).rSum = s.rSum := by
  simp only [learn]
  constructor
  · rw [learnDecay_logs, learnSync_logs, learnFit_logs,
      learnStats_exc cfg s _ _ h100 hm h0]
  · rw [learnDecay_rSum, learnSync_rSum, learnFit_rSum,
      learnStats_exc cfg s _ _ h100 hm h0]

/-- Claim C5 (counterexample to the claim as stated).  At round 100 (outside
money-time) with `num_of_samples = 0` and `r_sum = 7`, the exception is
logged but `r_sum` is still `7` after the call — not reset as the claim
asserts. -/
theorem C5_counterexample :
    (100 : ℕ) % 100 = 0 ∧
    stateNoSamples.numOfSamples = 0 ∧
    (learn scenConfig (learnInAt 100) stateNoSamples).logs
      = ["EXCEPTION", "EXCEPTION"] ∧
    (learn scenConfig (learnInAt 100) stateNoSamples).rSum ≠ 0 := by
  refine ⟨by decide, by decide, ?_, ?_⟩ <;> simp only [learn]
  · rw [learnDecay_logs, learnSync_logs, learnFit_logs,
      learnStats_exc scenConfig stateNoSamples _ _ (by decide) (by decide) (by decide)]
    rfl
  · rw [learnDecay_rSum, learnSync_rSum, learnFit_rSum,
      learnStats_exc scenConfig stateNoSamples _ _ (by decide) (by decide) (by decide)]
    norm_num [stateNoSamples]

/-- Claim C5 (witness).  The amended theorem at the concrete round-100 call
with an empty training window. -/
theorem C5_witness :
    (learn scenConfig (learnInAt 100) stateNoSamples).logs
      = stateNoSamples.logs ++ ["EXCEPTION", "EXCEPTION"] ∧
    (learn scenConfig (learnInAt 100) stateNoSamples).rSum = stateNoSamples.rSum :=
  C5_exception_skips_reset scenConfig (learnInAt 100) stateNoSamples
    (by decide) (by decide) (by decide)

end PriorBaseDQN
